import Mathlib

/-!
Shallow embedding of the AssistantGPT repository (a voice-driven
task-creation Telegram assistant) in Lean 4, for checking its
natural-language specification against the code.

Embedded components:
  * `util.calculate_date` (src/util.py): the date calculator, in two
    forms — a typed form following the source's type annotations
    (`week_day : Optional[WeekDayEnum]`) and a dynamically-typed form
    `calculate_date_py` reflecting how the function is actually invoked
    through the GPT function-calling engine (keyword arguments decoded
    from JSON, so `week_day` arrives as a plain integer).
  * `GPT.converse` and `GPT._process_function_call` (src/gpt.py): the
    tool-calling conversation loop.  The language model is modelled as a
    script: the list of assistant replies it returns, in order.  The run
    records every message payload sent to the model and the sequence of
    handler invocations.
  * `Speech.recognize` (src/speech.py) and
    `TelegramBot.voice_message` (src/bot.py): the speech-recognition
    result handling.

Modelling conventions: Python `datetime` instants are naive local
datetimes; we model the local timezone as UTC with no DST (fields:
days since the Unix epoch, hour, minute, second, microsecond).
Python integer `%` is Euclidean mod (as Lean's `Int` `%`); Python
`int()` truncates toward zero, modelled by `pyIntTrunc`.  Exceptions are
modelled with `Except PyError`.  `json.loads` and the handlers are
external collaborators and enter the loop as parameters.
-/

/-- Exceptions raised by the Python code, collapsed into one error type:
`valueError` (e.g. `datetime.replace` with an out-of-range field, or an
`Enum` constructed from a value outside its members), `typeError`,
`attributeError` (attribute access on a value lacking it, e.g.
`int.value`), `indexError`, `toolNotFound name` (the `GPTException`
raised when the requested function is absent from the registry),
`jsonDecodeError` (malformed function-call argument payload),
`botFailure` (the `TelegramBotException` on speech-recognition failure)
and `scriptEnded` (a modelling artifact: the scripted model ran out of
replies, standing for a conversation that is still blocked on the
language-model API). -/
inductive PyError where
  | valueError
  | typeError
  | attributeError
  | indexError
  | toolNotFound (name : String)
  | jsonDecodeError
  | botFailure
  | scriptEnded
deriving DecidableEq

/-- Python `int()` applied to an exact rational `a / b` (with `b > 0`):
truncation toward zero. -/
def pyIntTrunc (a b : Int) : Int :=
  if 0 ≤ a then a / b else -((-a) / b)

/-- A naive Python `datetime` instant, with the date part kept as the
number of days since 1970-01-01 (so calendar arithmetic on days is
addition) and the time-of-day split into the `datetime` fields. -/
structure PyDateTime where
  epochDay : Int
  hour : Nat
  minute : Nat
  second : Nat
  microsecond : Nat
deriving DecidableEq

/-- Microseconds elapsed since local midnight of the instant's date. -/
def PyDateTime.subDayUsec (d : PyDateTime) : Nat :=
  (d.hour * 3600 + d.minute * 60 + d.second) * 1000000 + d.microsecond

/-- Python `int(d.timestamp() * 1000)`: milliseconds since the Unix
epoch, truncated toward zero (local timezone modelled as UTC). -/
def PyDateTime.timestampMs (d : PyDateTime) : Int :=
  pyIntTrunc (d.epochDay * 86400000000 + (d.subDayUsec : Int)) 1000

/-- Python `datetime.replace(hour=h, minute=m)`: validates the ranges
(`ValueError` outside them, as `datetime` does) and keeps every other
field, including seconds and microseconds. -/
def PyDateTime.replaceTime (d : PyDateTime) (h m : Int) :
    Except PyError PyDateTime :=
  if h < 0 ∨ 24 ≤ h then .error .valueError
  else if m < 0 ∨ 60 ≤ m then .error .valueError
  else .ok { d with hour := h.toNat, minute := m.toNat }

/-- Python `d + datetime.timedelta(days=n)` on a naive datetime: the
same wall-clock time `n` calendar days later. -/
def PyDateTime.addDays (d : PyDateTime) (n : Int) : PyDateTime :=
  { d with epochDay := d.epochDay + n }

/-- Python `datetime.weekday()`: Monday = 0 … Sunday = 6.  1970-01-01
was a Thursday (weekday 3). -/
def PyDateTime.weekday (d : PyDateTime) : Int :=
  (d.epochDay + 3) % 7

/-- The `WeekDayEnum` enumeration of src/util.py
(`MONDAY = 0` … `SUNDAY = 6`). -/
inductive WeekDayEnum where
  | monday
  | tuesday
  | wednesday
  | thursday
  | friday
  | saturday
  | sunday
deriving DecidableEq

/-- The `.value` attribute of a `WeekDayEnum` member. -/
def WeekDayEnum.value : WeekDayEnum → Int
  | .monday => 0
  | .tuesday => 1
  | .wednesday => 2
  | .thursday => 3
  | .friday => 4
  | .saturday => 5
  | .sunday => 6

/-- Python `WeekDayEnum(n)`: the enum-call constructor, which raises
`ValueError` for a value that is not one of the members 0–6. -/
def WeekDayEnum.ofValue (n : Int) : Except PyError WeekDayEnum :=
  if n = 0 then .ok .monday
  else if n = 1 then .ok .tuesday
  else if n = 2 then .ok .wednesday
  else if n = 3 then .ok .thursday
  else if n = 4 then .ok .friday
  else if n = 5 then .ok .saturday
  else if n = 6 then .ok .sunday
  else .error .valueError

/-- Python truthiness of an `Optional[int]`: `None` and `0` are falsy,
every other integer truthy. -/
def optTruthy : Option Int → Bool
  | none => false
  | some v => decide (v ≠ 0)

/-- Python `x if x else 0` on an `Optional[int]`. -/
def optOrZero (o : Option Int) : Int :=
  match o with
  | none => 0
  | some v => if v ≠ 0 then v else 0

/-- The weekday advance of `util.calculate_date`:
`(week_day.value - current_weekday) % 7`, Python `%` being Euclidean
(`0` when omitted). -/
def weekdayAdvance (now : PyDateTime) (week_day : Option WeekDayEnum) : Int :=
  match week_day with
  | none => 0
  | some wd => (wd.value - now.weekday) % 7

/-- Body of `util.calculate_date` under the source's type annotations
(`days : int = 0`, `hours`, `minutes : Optional[int]`,
`week_day : Optional[WeekDayEnum]`), returning the millisecond
timestamp before its final string formatting.  `now` stands for
`datetime.datetime.now()`.  Mirrors the source: the time-of-day set is
guarded by Python truthiness (`if hours or minutes:`), the `days`
offset is added next, and the weekday advance is computed against the
weekday of the original `current_time`. -/
def calculate_date_ms (now : PyDateTime) (days : Int)
    (hours minutes : Option Int) (week_day : Option WeekDayEnum) :
    Except PyError Int := do
  let current_time := now
  let future_time₀ ←
    if optTruthy hours || optTruthy minutes then
      current_time.replaceTime (optOrZero hours) (optOrZero minutes)
    else
      pure current_time
  let future_time₁ := future_time₀.addDays days
  let future_time₂ :=
    match week_day with
    | none => future_time₁
    | some wd =>
      let current_weekday := current_time.weekday
      future_time₁.addDays ((wd.value - current_weekday) % 7)
  pure future_time₂.timestampMs

/-- `util.calculate_date`: `str(int(future_time.timestamp() * 1000))`,
the decimal-string rendering of `calculate_date_ms`. -/
def calculate_date (now : PyDateTime) (days : Int)
    (hours minutes : Option Int) (week_day : Option WeekDayEnum) :
    Except PyError String :=
  (calculate_date_ms now days hours minutes week_day).map toString

/-- Dynamically-typed Python values, as decoded from a JSON
function-call argument payload or passed as keyword arguments:
integers, strings, booleans, `WeekDayEnum` members and `None`. -/
inductive PyVal where
  | int (n : Int)
  | str (s : String)
  | bool (b : Bool)
  | enum (w : WeekDayEnum)
  | pynone
deriving DecidableEq

/-- Python truthiness of a dynamic value. -/
def PyVal.truthy : PyVal → Bool
  | .int n => decide (n ≠ 0)
  | .str s => decide (s ≠ "")
  | .bool b => b
  | .enum _ => true
  | .pynone => false

/-- Coerce a dynamic value where an `int` is required (`TypeError`
otherwise; a Python `bool` is an `int`). -/
def PyVal.asInt : PyVal → Except PyError Int
  | .int n => .ok n
  | .bool b => .ok (if b then 1 else 0)
  | _ => .error .typeError

/-- Python attribute access `x.value`: defined only on `WeekDayEnum`
members; any other value raises `AttributeError`. -/
def PyVal.dotValue : PyVal → Except PyError Int
  | .enum w => .ok w.value
  | _ => .error .attributeError

/-- A decoded function-call argument payload: the key → value pairs of
the JSON object, applied as named (keyword) parameters. -/
abbrev ArgList := List (String × PyVal)

/-- Keyword-argument binding: the value supplied under key `k`, or the
parameter's default. -/
def kwarg (kwargs : List (String × PyVal)) (k : String) (default : PyVal) :
    PyVal :=
  match kwargs.find? (fun p => p.1 == k) with
  | some p => p.2
  | none => default

/-- `util.calculate_date` as it executes when invoked through the
engine's `call(**function_args)` with keyword arguments decoded from
JSON: every parameter arrives as a dynamic `PyVal` (defaults `days = 0`
and `None` for the rest), and the weekday branch reads
`week_day.value`, which is only defined for `WeekDayEnum` members. -/
def calculate_date_py (now : PyDateTime)
    (kwargs : List (String × PyVal)) : Except PyError String := do
  let days := kwarg kwargs "days" (.int 0)
  let hours := kwarg kwargs "hours" .pynone
  let minutes := kwarg kwargs "minutes" .pynone
  let week_day := kwarg kwargs "week_day" .pynone
  let current_time := now
  let future_time₀ ←
    if hours.truthy || minutes.truthy then do
      let h ← (if hours.truthy then hours else .int 0).asInt
      let m ← (if minutes.truthy then minutes else .int 0).asInt
      current_time.replaceTime h m
    else
      pure current_time
  let d ← days.asInt
  let future_time₁ := future_time₀.addDays d
  let future_time₂ ←
    match week_day with
    | .pynone => pure future_time₁
    | wd => do
      let v ← wd.dotValue
      pure (future_time₁.addDays ((v - current_time.weekday) % 7))
  pure (toString future_time₂.timestampMs)

/-- The JSON-Schema-like parameter description of one exposed function
parameter (`FunctionSpec` entries built in `TelegramBot.__init__`). -/
structure ParamSpec where
  type : String
  minimum : Option Int := none
  maximum : Option Int := none
deriving DecidableEq

/-- The `parameters.properties` of the `calculate_date` `FunctionSpec`
registered in `TelegramBot.__init__` (src/bot.py): every parameter is
declared as a JSON integer, `week_day` with range 1–7. -/
def calculate_date_properties : List (String × ParamSpec) :=
  [("days", { type := "integer" }),
   ("hours", { type := "integer" }),
   ("minutes", { type := "integer" }),
   ("week_day", { type := "integer", minimum := some 1, maximum := some 7 })]

/-- Message roles of the conversation (`role` field of the OpenAI chat
payload dictionaries built in `GPT.converse`). -/
inductive FRole where
  | system
  | user
  | assistant
  | function
deriving DecidableEq

/-- A requested function call carried by an assistant message: the
function name and the JSON-encoded argument string. -/
structure FuncCall where
  name : String
  arguments : String
deriving DecidableEq

/-- One message of the conversation payload: role, optional text
content, optional requested function call (assistant messages), and —
for role `function` — the name of the function whose output it holds. -/
structure Message where
  role : FRole
  content : Option String := none
  function_call : Option FuncCall := none
  name : Option String := none
deriving DecidableEq

/-- The fixed instructional text of `GPT.SYSTEM_MESSAGE` (abbreviated
to its first sentences; the loop never inspects this content). -/
def gptSystemText : String :=
  "You are AssistantGPT. You collect input from a user in terms of " ++
  "things they need to do, then use create_task function to create tasks."

/-- The system message opening every conversation. -/
def systemMessage : Message :=
  { role := .system, content := some gptSystemText }

/-- The user message holding the recognized transcript. -/
def userMessage (transcript : String) : Message :=
  { role := .user, content := some transcript }

/-- The function-result message appended after a handler invocation:
`role = function`, the called function's name, the handler's output as
content. -/
def functionMessage (fname out : String) : Message :=
  { role := .function, content := some out, name := some fname }

/-- One scripted reply of the language model.  The API returns exactly
one assistant message per request (its role is fixed), carrying text
content and/or a requested function call. -/
structure AssistantReply where
  content : Option String := none
  function_call : Option FuncCall := none
deriving DecidableEq

/-- The assistant `Message` appended to the conversation for a model
reply. -/
def AssistantReply.toMessage (r : AssistantReply) : Message :=
  { role := .assistant, content := r.content, function_call := r.function_call }

/-- The `FunctionRegistry`: the handlers exposed to the model, keyed by
the callable's `__name__` (the engine matches
`call.__name__ == function_name` over the registry's keys). -/
abbrev Registry := List (String × (List (String × PyVal) → Except PyError String))

/-- Outcome of one `GPT.converse` run: the returned final content (or
the raised error), every message payload sent to the model, in order,
and the sequence of handler invocations performed, in order. -/
structure RunResult where
  outcome : Except PyError (Option String)
  sent : List (List Message)
  calls : List String

/-- The conversation loop of `GPT.converse` together with
`GPT._process_function_call` (src/gpt.py), with the language model
scripted as the list of its successive replies.  Each iteration sends
the current message list, appends the reply, and either terminates on
a plain-text reply, or looks the requested function up by name
(`GPTException` when absent — the lookup happens before the argument
payload is parsed), parses the arguments with `jsonLoads`, invokes the
handler, appends the function-result message and continues. -/
def converseAux (jsonLoads : String → Option (List (String × PyVal)))
    (reg : Registry) (script : List AssistantReply) (msgs : List Message)
    (sent : List (List Message)) (calls : List String) : RunResult :=
  match script with
  | [] => ⟨.error .scriptEnded, sent ++ [msgs], calls⟩
  | r :: rest =>
    let sent' := sent ++ [msgs]
    let response_message := r.toMessage
    let msgs' := msgs ++ [response_message]
    match r.function_call with
    | none => ⟨.ok r.content, sent', calls⟩
    | some fc =>
      match reg.find? (fun p => p.1 == fc.name) with
      | none => ⟨.error (.toolNotFound fc.name), sent', calls⟩
      | some entry =>
        match jsonLoads fc.arguments with
        | none => ⟨.error .jsonDecodeError, sent', calls⟩
        | some args =>
          let calls' := calls ++ [fc.name]
          match entry.2 args with
          | .error e => ⟨.error e, sent', calls'⟩
          | .ok out =>
            converseAux jsonLoads reg rest
              (msgs' ++ [functionMessage fc.name out]) sent' calls'

/-- `GPT.converse transcript`: initializes the message list with the
system message and the user message holding the transcript, then runs
the loop against the scripted model. -/
def converse (jsonLoads : String → Option (List (String × PyVal)))
    (reg : Registry) (transcript : String)
    (script : List AssistantReply) : RunResult :=
  converseAux jsonLoads reg script
    [systemMessage, userMessage transcript] [] []

/-- One ranked alternative of a speech-recognition result. -/
structure SpeechAlternative where
  transcript : String
deriving DecidableEq

/-- One result of the speech API response. -/
structure SpeechResult where
  alternatives : List SpeechAlternative
deriving DecidableEq

/-- `Speech.recognize` (src/speech.py), over the speech API response:
the best alternative of the first result when there is one, `None`
when the response holds no result (`results[0].alternatives[0]` raises
`IndexError` when the first result has no alternative). -/
def recognize : List SpeechResult → Except PyError (Option String)
  | [] => .ok none
  | r :: _ =>
    match r.alternatives with
    | [] => .error .indexError
    | a :: _ => .ok (some a.transcript)

/-- Python `not transcript` on an `Optional[str]`: `None` and the empty
string are falsy. -/
def pyNotStr : Option String → Bool
  | none => true
  | some s => s == ""

/-- The transcript-handling core of `TelegramBot.voice_message`
(src/bot.py): recognize the recording, raise `TelegramBotException`
when the transcript is falsy, otherwise hand the transcript to
`GPT.converse` (passed in as `gptConverse`, which performs all model
calls and task creation). -/
def voice_message (results : List SpeechResult)
    (gptConverse : String → Except PyError String) :
    Except PyError String := do
  let transcript ← recognize results
  if pyNotStr transcript then
    .error .botFailure
  else
    -- here transcript = some t with t nonempty
    gptConverse (transcript.getD "")


/-- Number of system messages in a payload. -/
def countSystem (p : List Message) : Nat :=
  p.countP (fun m => m.role == FRole.system)

/-- Check that a function-result message m₂ sits right after the
assistant message m₁ that requested it: m₁ has the assistant role and
carries a function call whose name is the one recorded in m₂. -/
def pairCheck (m₁ m₂ : Message) : Bool :=
  m₁.role == FRole.assistant &&
    match m₁.function_call with
    | some fc => m₂.name == some fc.name
    | none => false

/-- Every function-result message of the list is immediately preceded
by the assistant message that requested it; `prev` is the message just
before the list, if any. -/
def pairedOkAux : Option Message → List Message → Bool
  | _, [] => true
  | prev, m :: rest =>
    (if m.role == FRole.function then
      match prev with
      | some pm => pairCheck pm m
      | none => false
     else true) && pairedOkAux (some m) rest

/-- Proper pairing of function-result messages over a whole payload. -/
def pairedOk (p : List Message) : Bool := pairedOkAux none p

/-- The last element of the list, or `prev` when it is empty. -/
def lastOr (prev : Option Message) : List Message → Option Message
  | [] => prev
  | m :: rest => lastOr (some m) rest

/-- The invariant of every payload sent to the model during a
conversation over transcript t: it begins with the system message
immediately followed by the user message holding t, holds exactly one
system message in total, and every function-result message is
immediately preceded by the assistant message that requested that
call. -/
def sentOK (t : String) (p : List Message) : Bool :=
  decide (p.take 2 = [systemMessage, userMessage t]) &&
  countSystem p == 1 && pairedOk p

deriving instance DecidableEq for Except

/-- C1: for every transcript and every script whose first model reply
carries no function call, `converse` returns that reply's content
verbatim and performs no handler invocation, whatever the registry and
the JSON decoder. -/
theorem converse_plain_text
    (jsonLoads : String → Option (List (String × PyVal))) (reg : Registry)
    (transcript : String) (r : AssistantReply) (rest : List AssistantReply)
    (h : r.function_call = none) :
    (converse jsonLoads reg transcript (r :: rest)).outcome = .ok r.content ∧
    (converse jsonLoads reg transcript (r :: rest)).calls = [] := by
  simp [converse, converseAux, h]

/-- Witness for C1 at a concrete run: a model replying immediately with
plain text. -/
theorem converse_plain_text_witness :
    ({ content := some "All done" : AssistantReply }.function_call = none) ∧
    (converse (fun _ => none) [] "buy milk"
        [{ content := some "All done" }]).outcome = .ok (some "All done") ∧
    (converse (fun _ => none) [] "buy milk"
        [{ content := some "All done" }]).calls = [] := by
  refine ⟨rfl, ?_⟩
  exact converse_plain_text (fun _ => none) [] "buy milk"
    { content := some "All done" } [] rfl

/-- C3: when the first model reply requests a function whose name is
absent from the registry, `converse` raises the tool-not-found
`GPTException`, invokes no handler, and sends exactly one model request
(the initial one) — and this holds for every JSON decoder and every
argument payload, the payload being parsed only after a successful
lookup. -/
theorem converse_unknown_function
    (jsonLoads : String → Option (List (String × PyVal))) (reg : Registry)
    (transcript fname fargs : String) (c : Option String)
    (rest : List AssistantReply)
    (habs : ∀ p ∈ reg, p.1 ≠ fname) :
    (converse jsonLoads reg transcript
        ({ content := c, function_call := some ⟨fname, fargs⟩ } :: rest)).outcome
      = .error (.toolNotFound fname) ∧
    (converse jsonLoads reg transcript
        ({ content := c, function_call := some ⟨fname, fargs⟩ } :: rest)).calls
      = [] ∧
    (converse jsonLoads reg transcript
        ({ content := c, function_call := some ⟨fname, fargs⟩ } :: rest)).sent
      = [[systemMessage, userMessage transcript]] := by
  have hfind : reg.find? (fun p => p.1 == fname) = none := by
    rw [List.find?_eq_none]
    intro p hp
    simpa using habs p hp
  simp [converse, converseAux, hfind]

/-- Witness for C3 at a concrete run: an unregistered name requested
with an argument payload the decoder cannot even parse — the error is
still the tool-not-found one. -/
theorem converse_unknown_function_witness :
    (∀ p ∈ ([("create_task", fun _ => .ok "{}")] : Registry),
      p.1 ≠ "calculate_dates") ∧
    (converse (fun _ => none) [("create_task", fun _ => .ok "{}")] "hi"
        [{ content := none,
           function_call := some ⟨"calculate_dates", "not json"⟩ }]).outcome
      = .error (.toolNotFound "calculate_dates") ∧
    (converse (fun _ => none) [("create_task", fun _ => .ok "{}")] "hi"
        [{ content := none,
           function_call := some ⟨"calculate_dates", "not json"⟩ }]).calls
      = [] ∧
    (converse (fun _ => none) [("create_task", fun _ => .ok "{}")] "hi"
        [{ content := none,
           function_call := some ⟨"calculate_dates", "not json"⟩ }]).sent
      = [[systemMessage, userMessage "hi"]] := by
  refine ⟨?_, ?_⟩
  · intro p hp
    simp at hp
    simp [hp]
  · exact converse_unknown_function (fun _ => none)
      [("create_task", fun _ => .ok "{}")] "hi" "calculate_dates" "not json"
      none [] (by intro p hp; simp at hp; simp [hp])

/-- C9: when the speech API response holds no result, `recognize`
returns `None`, and `voice_message` aborts with the
`TelegramBotException` before touching the conversation engine: its
outcome is the same for every possible `gptConverse`, so no model call
is made and no task is created. -/
theorem recognize_no_result_aborts :
    recognize [] = .ok none ∧
    (∀ g : String → Except PyError String,
      voice_message [] g = .error .botFailure) ∧
    (∀ g₁ g₂ : String → Except PyError String,
      voice_message [] g₁ = voice_message [] g₂) := by
  refine ⟨rfl, ?_, ?_⟩ <;> intros <;> rfl

/-- C2: for a model that first requests `calculate_date`, then requests
`create_task`, then replies with plain text, `converse` invokes each of
the two registered handlers exactly once, in that order (the invocation
trace is exactly the two names), and returns the final reply's
content. -/
theorem converse_two_function_calls
    (jsonLoads : String → Option (List (String × PyVal)))
    (h₁ h₂ : List (String × PyVal) → Except PyError String)
    (reg : Registry) (transcript a₁ a₂ : String) (c : Option String)
    (args₁ args₂ : List (String × PyVal)) (o₁ o₂ : String)
    (hr₁ : reg.find? (fun p => p.1 == "calculate_date")
      = some ("calculate_date", h₁))
    (hr₂ : reg.find? (fun p => p.1 == "create_task")
      = some ("create_task", h₂))
    (hj₁ : jsonLoads a₁ = some args₁) (hj₂ : jsonLoads a₂ = some args₂)
    (ho₁ : h₁ args₁ = .ok o₁) (ho₂ : h₂ args₂ = .ok o₂) :
    (converse jsonLoads reg transcript
        [{ function_call := some ⟨"calculate_date", a₁⟩ },
         { function_call := some ⟨"create_task", a₂⟩ },
         { content := c }]).outcome = .ok c ∧
    (converse jsonLoads reg transcript
        [{ function_call := some ⟨"calculate_date", a₁⟩ },
         { function_call := some ⟨"create_task", a₂⟩ },
         { content := c }]).calls = ["calculate_date", "create_task"] := by
  simp [converse, converseAux, hr₁, hr₂, hj₁, hj₂, ho₁, ho₂]

/-- Witness for C2 at a concrete run: both handlers fire once, in
order, and the final text comes back. -/
theorem converse_two_function_calls_witness :
    (converse (fun _ => some [])
        [("calculate_date", fun _ => .ok "1704186000000"),
         ("create_task", fun _ => .ok "{}")] "meeting tomorrow at 9"
        [{ function_call := some ⟨"calculate_date", "{}"⟩ },
         { function_call := some ⟨"create_task", "{}"⟩ },
         { content := some "Created the task" }]).outcome
      = .ok (some "Created the task") ∧
    (converse (fun _ => some [])
        [("calculate_date", fun _ => .ok "1704186000000"),
         ("create_task", fun _ => .ok "{}")] "meeting tomorrow at 9"
        [{ function_call := some ⟨"calculate_date", "{}"⟩ },
         { function_call := some ⟨"create_task", "{}"⟩ },
         { content := some "Created the task" }]).calls
      = ["calculate_date", "create_task"] := by
  exact converse_two_function_calls (fun _ => some [])
    (fun _ => .ok "1704186000000") (fun _ => .ok "{}")
    [("calculate_date", fun _ => .ok "1704186000000"),
     ("create_task", fun _ => .ok "{}")]
    "meeting tomorrow at 9" "{}" "{}" (some "Created the task") [] []
    "1704186000000" "{}" rfl rfl rfl rfl rfl rfl

/-- C10: the `FunctionSpec` registered for `calculate_date` declares
`week_day` as a JSON integer ranged 1–7, the engine hands the decoded
integer straight to the handler as a keyword argument, and the
handler's weekday branch — defined only for `WeekDayEnum` members
because it reads `week_day.value` — then raises `AttributeError` for
every integer, instead of computing a weekday advance; end to end, a
scripted model call of `calculate_date` with an integer `week_day`
makes the conversation abort with that `AttributeError` right after the
single invocation. -/
theorem calculate_date_week_day_int_fails
    (now : PyDateTime) (n dys : Int) (s transcript : String)
    (jsonLoads : String → Option (List (String × PyVal)))
    (hj : jsonLoads s = some [("week_day", PyVal.int n)]) :
    (calculate_date_properties.find? (fun p => p.1 == "week_day")
      = some ("week_day",
          { type := "integer", minimum := some 1, maximum := some 7 })) ∧
    calculate_date_py now [("week_day", .int n)] = .error .attributeError ∧
    calculate_date_py now [("days", .int dys), ("week_day", .int n)]
      = .error .attributeError ∧
    (converse jsonLoads [("calculate_date", calculate_date_py now)] transcript
        [{ function_call := some ⟨"calculate_date", s⟩ }]).outcome
      = .error .attributeError ∧
    (converse jsonLoads [("calculate_date", calculate_date_py now)] transcript
        [{ function_call := some ⟨"calculate_date", s⟩ }]).calls
      = ["calculate_date"] := by
  refine ⟨rfl, rfl, rfl, ?_, ?_⟩ <;>
  · simp only [converse, converseAux, hj]
    rfl

/-- Witness for C10 at a concrete run: `week_day = 5` (inside the
declared 1–7 range) decoded from the payload still crashes the
handler. -/
theorem calculate_date_week_day_int_fails_witness :
    ((fun _ => some [("week_day", PyVal.int 5)]) "{}"
      = some [("week_day", PyVal.int 5)]) ∧
    calculate_date_py ⟨19723, 15, 0, 0, 0⟩ [("week_day", .int 5)]
      = .error .attributeError ∧
    (converse (fun _ => some [("week_day", PyVal.int 5)])
        [("calculate_date", calculate_date_py ⟨19723, 15, 0, 0, 0⟩)] "hi"
        [{ function_call := some ⟨"calculate_date", "{}"⟩ }]).outcome
      = .error .attributeError := by
  refine ⟨rfl, ?_, ?_⟩
  · exact (calculate_date_week_day_int_fails ⟨19723, 15, 0, 0, 0⟩ 5 0 "{}"
      "hi" (fun _ => some [("week_day", PyVal.int 5)]) rfl).2.1
  · exact (calculate_date_week_day_int_fails ⟨19723, 15, 0, 0, 0⟩ 5 0 "{}"
      "hi" (fun _ => some [("week_day", PyVal.int 5)]) rfl).2.2.2.1

/-- Adding zero days leaves the instant unchanged. -/
theorem PyDateTime.addDays_zero (d : PyDateTime) : d.addDays 0 = d := by
  simp [PyDateTime.addDays]

/-- A successful `replace(hour, minute)` keeps the date. -/
theorem PyDateTime.replaceTime_epochDay (d : PyDateTime) (h m : Int)
    (y : PyDateTime) (hy : d.replaceTime h m = .ok y) :
    y.epochDay = d.epochDay := by
  unfold PyDateTime.replaceTime at hy
  split_ifs at hy <;> cases hy <;> rfl

/-- Advancing an at-or-after-the-epoch instant by k ≥ 0 days advances
its millisecond timestamp by exactly k * 86400000. -/
theorem timestampMs_addDays (d : PyDateTime) (k : Int)
    (hd : 0 ≤ d.epochDay) (hk : 0 ≤ k) :
    (d.addDays k).timestampMs = d.timestampMs + k * 86400000 := by
  simp only [PyDateTime.timestampMs, PyDateTime.addDays,
    PyDateTime.subDayUsec, pyIntTrunc]
  split_ifs <;> omega

/-- Normal form of `calculate_date_ms`: the optional time-of-day set
(whose outcome decides success), then the `days` offset and the weekday
advance applied to the date. -/
theorem calculate_date_ms_eq (now : PyDateTime) (days : Int)
    (hours minutes : Option Int) (week_day : Option WeekDayEnum) :
    calculate_date_ms now days hours minutes week_day
      = (if optTruthy hours || optTruthy minutes then
            now.replaceTime (optOrZero hours) (optOrZero minutes)
          else .ok now).map
          (fun y => ((y.addDays days).addDays
              (weekdayAdvance now week_day)).timestampMs) := by
  unfold calculate_date_ms
  cases week_day <;> split_ifs with hg <;>
    cases hr : now.replaceTime (optOrZero hours) (optOrZero minutes) <;>
    simp_all [weekdayAdvance, PyDateTime.addDays_zero, Except.map,
      Except.bind, Bind.bind, Pure.pure, Except.pure]

/-- C8: for every current instant at or after the epoch (as
`datetime.now()` always is) and every days ≥ 0, `calculate_date` with
only a days offset returns a timestamp exactly days * 86400000
milliseconds greater than the days = 0 result. -/
theorem calculate_date_days_additive (now : PyDateTime) (d : Int)
    (hd : 0 ≤ d) (hE : 0 ≤ now.epochDay) :
    ∃ b : Int, calculate_date_ms now 0 none none none = .ok b ∧
      calculate_date_ms now d none none none = .ok (b + d * 86400000) ∧
      calculate_date now 0 none none none = .ok (toString b) ∧
      calculate_date now d none none none
        = .ok (toString (b + d * 86400000)) := by
  have e0 : now.addDays 0 = now := PyDateTime.addDays_zero now
  have h1 : calculate_date_ms now 0 none none none = .ok now.timestampMs := by
    rw [calculate_date_ms_eq]
    simp [optTruthy, weekdayAdvance, PyDateTime.addDays_zero, Except.map]
  have h2 : calculate_date_ms now d none none none
      = .ok (now.timestampMs + d * 86400000) := by
    rw [calculate_date_ms_eq]
    simp [optTruthy, weekdayAdvance, PyDateTime.addDays_zero, Except.map,
      timestampMs_addDays now d hE hd]
  exact ⟨now.timestampMs, h1, h2,
    by simp [calculate_date, h1, Except.map],
    by simp [calculate_date, h2, Except.map]⟩

/-- Witness for C8 at a concrete instant and offset days = 3. -/
theorem calculate_date_days_additive_witness :
    (0:Int) ≤ 3 ∧ (0:Int) ≤ (19723:Int) ∧
    (∃ b : Int,
      calculate_date_ms ⟨19723, 15, 0, 0, 0⟩ 0 none none none = .ok b ∧
      calculate_date_ms ⟨19723, 15, 0, 0, 0⟩ 3 none none none
        = .ok (b + 3 * 86400000) ∧
      calculate_date ⟨19723, 15, 0, 0, 0⟩ 0 none none none
        = .ok (toString b) ∧
      calculate_date ⟨19723, 15, 0, 0, 0⟩ 3 none none none
        = .ok (toString (b + 3 * 86400000))) :=
  ⟨by decide, by decide,
    calculate_date_days_additive ⟨19723, 15, 0, 0, 0⟩ 3 (by decide) (by decide)⟩

/-- C6: with a target weekday, the result is the no-weekday result
advanced forward by (target − currentWeekday) mod 7 days — a value in
0–6 (never backward), computed against the weekday of the original
instant and additive with the days offset — and when no hours/minutes
are given the current time-of-day is preserved (the result is exactly
the original instant with only its date advanced). -/
theorem calculate_date_weekday_forward (now : PyDateTime) (days : Int)
    (hours minutes : Option Int) (wd : WeekDayEnum) (b : Int)
    (hE : 0 ≤ now.epochDay + days)
    (hb : calculate_date_ms now days hours minutes none = .ok b) :
    calculate_date_ms now days hours minutes (some wd)
      = .ok (b + (wd.value - now.weekday) % 7 * 86400000) ∧
    0 ≤ (wd.value - now.weekday) % 7 ∧
    (wd.value - now.weekday) % 7 < 7 ∧
    (hours = none → minutes = none →
      calculate_date_ms now days hours minutes (some wd)
        = .ok (PyDateTime.timestampMs
            { now with epochDay :=
                now.epochDay + days + (wd.value - now.weekday) % 7 })) := by
  have hadv0 : 0 ≤ (wd.value - now.weekday) % 7 :=
    Int.emod_nonneg _ (by norm_num)
  have hadv7 : (wd.value - now.weekday) % 7 < 7 :=
    Int.emod_lt_of_pos _ (by norm_num)
  rw [calculate_date_ms_eq] at hb ⊢
  rcases hy : (if optTruthy hours || optTruthy minutes then
      now.replaceTime (optOrZero hours) (optOrZero minutes)
    else .ok now) with e | y
  · rw [hy] at hb
    simp [Except.map] at hb
  · have hyE : y.epochDay = now.epochDay := by
      by_cases hg : (optTruthy hours || optTruthy minutes) = true
      · rw [if_pos hg] at hy
        exact PyDateTime.replaceTime_epochDay now _ _ y hy
      · rw [if_neg hg] at hy
        cases hy
        rfl
    rw [hy] at hb
    simp only [Except.map, weekdayAdvance, PyDateTime.addDays_zero] at hb ⊢
    have hstep : ((y.addDays days).addDays
        ((wd.value - now.weekday) % 7)).timestampMs
        = (y.addDays days).timestampMs
          + (wd.value - now.weekday) % 7 * 86400000 := by
      apply timestampMs_addDays
      · show 0 ≤ y.epochDay + days
        omega
      · exact hadv0
    refine ⟨?_, hadv0, hadv7, ?_⟩
    · rw [hstep]
      cases hb
      rfl
    · intro hhn hmn
      subst hhn
      subst hmn
      rw [if_neg (by simp [optTruthy])] at hy
      cases hy
      rw [hstep]
      cases hb
      simp only [PyDateTime.addDays] at hstep ⊢
      rw [← hstep]

/-- Witness for C6 at the spec's example: target FRIDAY when now is a
Monday (2024-01-01, 15:23:45) advances exactly 4 days and keeps the
time-of-day. -/
theorem calculate_date_weekday_forward_witness :
    (0:Int) ≤ 19723 + 0 ∧
    calculate_date_ms ⟨19723, 15, 23, 45, 0⟩ 0 none none none
      = .ok 1704122625000 ∧
    (calculate_date_ms ⟨19723, 15, 23, 45, 0⟩ 0 none none
        (some .friday)
      = .ok (1704122625000
          + (WeekDayEnum.friday.value
              - PyDateTime.weekday ⟨19723, 15, 23, 45, 0⟩) % 7 * 86400000) ∧
      0 ≤ (WeekDayEnum.friday.value
            - PyDateTime.weekday ⟨19723, 15, 23, 45, 0⟩) % 7 ∧
      (WeekDayEnum.friday.value
          - PyDateTime.weekday ⟨19723, 15, 23, 45, 0⟩) % 7 < 7 ∧
      (none = (none : Option Int) → none = (none : Option Int) →
        calculate_date_ms ⟨19723, 15, 23, 45, 0⟩ 0 none none (some .friday)
          = .ok (PyDateTime.timestampMs
              { (⟨19723, 15, 23, 45, 0⟩ : PyDateTime) with epochDay :=
                  19723 + 0 + (WeekDayEnum.friday.value
                    - PyDateTime.weekday ⟨19723, 15, 23, 45, 0⟩) % 7 }))) :=
  ⟨by decide, by decide,
    calculate_date_weekday_forward ⟨19723, 15, 23, 45, 0⟩ 0 none none
      .friday 1704122625000 (by decide) (by decide)⟩

/-- Counterexample to C5 as stated.  First input: hours provided with
the value zero (minutes absent), now = 2024-01-01T15:00:00 — the claim
predicts the time-of-day set to 00:00, i.e. the timestamp of
2024-01-01T00:00:00 (1704067200000 ms), but `if hours or minutes:` is a
Python truthiness test, the zero value does not trigger the set, and
the code returns the unchanged instant (1704121200000 ms).  Second
input: the claim's own example shifted to now = 2024-01-01T15:00:30 —
the claim predicts seconds discarded, i.e. 2024-01-02T09:00:00
(1704186000000 ms), but `replace(hour, minute)` keeps the seconds and
the code returns 2024-01-02T09:00:30 (1704186030000 ms). -/
theorem calculate_date_time_set_counterexample :
    (calculate_date ⟨19723, 15, 0, 0, 0⟩ 0 (some 0) none none
        = .ok "1704121200000" ∧
      ¬ calculate_date ⟨19723, 15, 0, 0, 0⟩ 0 (some 0) none none
        = .ok "1704067200000") ∧
    (calculate_date ⟨19723, 15, 0, 30, 0⟩ 1 (some 9) (some 0) none
        = .ok "1704186030000" ∧
      ¬ calculate_date ⟨19723, 15, 0, 30, 0⟩ 1 (some 9) (some 0) none
        = .ok "1704186000000") := by
  decide

/-- C5 as amended: whenever hours or minutes carries a truthy (nonzero)
value within `replace`'s ranges, the time-of-day is set to
(hours or 0):(minutes or 0) on the current date with seconds and
sub-second precision preserved, before the days offset and weekday
advance are applied; in particular the spec's example
`calculate_date(hours=9, minutes=0, days=1)` on a reference now of
2024-01-01T15:00:00 yields the timestamp of 2024-01-02T09:00:00. -/
theorem calculate_date_time_set (now : PyDateTime) (days : Int)
    (hours minutes : Option Int) (week_day : Option WeekDayEnum)
    (htr : (optTruthy hours || optTruthy minutes) = true)
    (hh0 : 0 ≤ optOrZero hours) (hh : optOrZero hours < 24)
    (hm0 : 0 ≤ optOrZero minutes) (hm : optOrZero minutes < 60) :
    (calculate_date_ms now days hours minutes week_day
      = .ok (PyDateTime.timestampMs
          { epochDay := now.epochDay + days + weekdayAdvance now week_day,
            hour := (optOrZero hours).toNat,
            minute := (optOrZero minutes).toNat,
            second := now.second,
            microsecond := now.microsecond })) ∧
    calculate_date ⟨19723, 15, 0, 0, 0⟩ 1 (some 9) (some 0) none
      = .ok "1704186000000" := by
  refine ⟨?_, by decide⟩
  rw [calculate_date_ms_eq, if_pos htr]
  unfold PyDateTime.replaceTime
  rw [if_neg (by omega), if_neg (by omega)]
  simp only [Except.map, PyDateTime.addDays]

/-- Witness for C5 (amended) at hours = 9, minutes = 0, days = 1 on
2024-01-01T15:00:00. -/
theorem calculate_date_time_set_witness :
    (optTruthy (some 9) || optTruthy (some 0)) = true ∧
    (0 ≤ optOrZero (some 9) ∧ optOrZero (some 9) < 24) ∧
    (0 ≤ optOrZero (some 0) ∧ optOrZero (some 0) < 60) ∧
    (calculate_date_ms ⟨19723, 15, 0, 0, 0⟩ 1 (some 9) (some 0) none
      = .ok (PyDateTime.timestampMs
          { epochDay := 19723 + 1 + weekdayAdvance ⟨19723, 15, 0, 0, 0⟩ none,
            hour := (optOrZero (some 9)).toNat,
            minute := (optOrZero (some 0)).toNat,
            second := 0,
            microsecond := 0 })) ∧
    calculate_date ⟨19723, 15, 0, 0, 0⟩ 1 (some 9) (some 0) none
      = .ok "1704186000000" :=
  ⟨by decide, ⟨by decide, by decide⟩, ⟨by decide, by decide⟩,
    (calculate_date_time_set ⟨19723, 15, 0, 0, 0⟩ 1 (some 9) (some 0) none
      (by decide) (by decide) (by decide) (by decide) (by decide)).1,
    (calculate_date_time_set ⟨19723, 15, 0, 0, 0⟩ 1 (some 9) (some 0) none
      (by decide) (by decide) (by decide) (by decide) (by decide)).2⟩

/-- Counterexample to C7 as stated: with no weekday argument at all,
`calculate_date(hours=25)` fails — `datetime.replace` raises
`ValueError` — so an invalid weekday is not the only failure mode. -/
theorem calculate_date_total_counterexample :
    calculate_date ⟨19723, 15, 0, 0, 0⟩ 0 (some 25) none none
      = .error .valueError := by
  decide

/-- C7 as amended: `calculate_date` is pure, rejects out-of-range
weekday values at the `WeekDayEnum` boundary (constructing a member
from a value outside 0–6 raises `ValueError`; the typed parameter
itself admits only the seven members), and its one remaining failure
mode is a triggered time-of-day set whose hour lies outside 0–23 or
minute outside 0–59; for every other argument combination it returns
the decimal-string rendering of an integer millisecond timestamp. -/
theorem calculate_date_failure_modes :
    (∀ n : Int, n < 0 ∨ 6 < n → WeekDayEnum.ofValue n = .error .valueError) ∧
    (∀ (now : PyDateTime) (days : Int) (hours minutes : Option Int)
        (week_day : Option WeekDayEnum),
        0 ≤ optOrZero hours → optOrZero hours < 24 →
        0 ≤ optOrZero minutes → optOrZero minutes < 60 →
        ∃ ms : Int, calculate_date now days hours minutes week_day
          = .ok (toString ms)) := by
  constructor
  · intro n hn
    unfold WeekDayEnum.ofValue
    split_ifs <;> first | rfl | omega
  · intro now days hours minutes week_day hh0 hh hm0 hm
    have hy : ∃ y, (if optTruthy hours || optTruthy minutes then
        now.replaceTime (optOrZero hours) (optOrZero minutes)
      else .ok now) = .ok y := by
      split_ifs
      · have hrep : now.replaceTime (optOrZero hours) (optOrZero minutes)
            = .ok { now with hour := (optOrZero hours).toNat,
                             minute := (optOrZero minutes).toNat } := by
          unfold PyDateTime.replaceTime
          rw [if_neg (by omega), if_neg (by omega)]
        exact ⟨_, hrep⟩
      · exact ⟨now, rfl⟩
    obtain ⟨y, hy⟩ := hy
    refine ⟨((y.addDays days).addDays (weekdayAdvance now week_day)).timestampMs, ?_⟩
    unfold calculate_date
    rw [calculate_date_ms_eq, hy]
    rfl

/-- Witness for C7 (amended): the out-of-range weekday value 7 is
rejected, and a plain in-range call returns a decimal string. -/
theorem calculate_date_failure_modes_witness :
    WeekDayEnum.ofValue 7 = .error .valueError ∧
    (∃ ms : Int, calculate_date ⟨19723, 15, 0, 0, 0⟩ 2 (some 9) none
        (some .friday) = .ok (toString ms)) :=
  ⟨calculate_date_failure_modes.1 7 (by decide),
    calculate_date_failure_modes.2 ⟨19723, 15, 0, 0, 0⟩ 2 (some 9) none
      (some .friday) (by decide) (by decide) (by decide) (by decide)⟩

/-- Pairing check distributes over an append: the tail is checked with
the last message before it as predecessor. -/
theorem pairedOkAux_append (xs ys : List Message) (prev : Option Message) :
    pairedOkAux prev (xs ++ ys)
      = (pairedOkAux prev xs && pairedOkAux (lastOr prev xs) ys) := by
  induction xs generalizing prev with
  | nil => simp [pairedOkAux, lastOr]
  | cons x xs ih =>
    simp [pairedOkAux, lastOr, ih (some x), Bool.and_assoc]

/-- The sent-payload invariant survives appending messages that are not
system messages and whose pairing is locally fine. -/
theorem sentOK_append (t : String) (p q : List Message)
    (hp : sentOK t p = true)
    (hq1 : ∀ m ∈ q, m.role ≠ FRole.system)
    (hq2 : pairedOkAux (lastOr none p) q = true) :
    sentOK t (p ++ q) = true := by
  simp only [sentOK, Bool.and_eq_true, decide_eq_true_eq, beq_iff_eq] at hp ⊢
  obtain ⟨⟨h1, h2⟩, h3⟩ := hp
  refine ⟨⟨?_, ?_⟩, ?_⟩
  · have hlen : 2 ≤ p.length := by
      have hl := congrArg List.length h1
      simp [List.length_take] at hl
      omega
    rw [List.take_append_of_le_length hlen, h1]
  · simp only [countSystem, List.countP_append] at h2 ⊢
    have hzero : List.countP (fun m => m.role == FRole.system) q = 0 := by
      rw [List.countP_eq_zero]
      intro m hm
      simpa using hq1 m hm
    omega
  · simp only [pairedOk, pairedOkAux_append] at h3 ⊢
    rw [h3, hq2]
    rfl

/-- Along every run of the conversation loop, if the current message
list and all payloads recorded so far satisfy the sent-payload
invariant, then so does every payload of the finished run. -/
theorem converseAux_sent_ok (t : String)
    (jsonLoads : String → Option (List (String × PyVal))) (reg : Registry) :
    ∀ (script : List AssistantReply) (msgs : List Message)
      (sent : List (List Message)) (calls : List String),
      sentOK t msgs = true →
      (∀ p ∈ sent, sentOK t p = true) →
      ∀ p ∈ (converseAux jsonLoads reg script msgs sent calls).sent,
        sentOK t p = true := by
  intro script
  induction script with
  | nil =>
    intro msgs sent calls hm hs p hp
    simp only [converseAux] at hp
    rcases List.mem_append.mp hp with h | h
    · exact hs p h
    · rw [List.mem_singleton.mp h]
      exact hm
  | cons r rest ih =>
    intro msgs sent calls hm hs p hp
    have hs' : ∀ q ∈ sent ++ [msgs], sentOK t q = true := by
      intro q hq
      rcases List.mem_append.mp hq with h | h
      · exact hs q h
      · rw [List.mem_singleton.mp h]
        exact hm
    simp only [converseAux] at hp
    rcases hfc : r.function_call with _ | fc
    · simp only [hfc] at hp
      exact hs' p hp
    · simp only [hfc] at hp
      rcases hfind : reg.find? (fun q => q.1 == fc.name) with _ | entry
      · simp only [hfind] at hp
        exact hs' p hp
      · simp only [hfind] at hp
        rcases hjl : jsonLoads fc.arguments with _ | args
        · simp only [hjl] at hp
          exact hs' p hp
        · simp only [hjl] at hp
          rcases hout : entry.2 args with e | out
          · simp only [hout] at hp
            exact hs' p hp
          · simp only [hout] at hp
            have hm' : sentOK t
                ((msgs ++ [r.toMessage]) ++ [functionMessage fc.name out])
                = true := by
              rw [List.append_assoc]
              apply sentOK_append t msgs _ hm
              · intro m hmem
                rcases List.mem_cons.mp hmem with h | h
                · rw [h]
                  simp [AssistantReply.toMessage]
                · rw [List.mem_singleton.mp h]
                  simp [functionMessage]
              · simp [pairedOkAux, pairCheck, AssistantReply.toMessage,
                  functionMessage, hfc]
            exact ih _ _ _ hm' hs' p hp

/-- C4: every message payload the conversation loop sends to the model
begins with exactly one system message — the fixed system message,
immediately followed by the user message holding the transcript, with
no other system message anywhere — and every function-result message in
the payload is immediately preceded by the assistant message that
requested exactly that function call. -/
theorem converse_sent_invariant
    (jsonLoads : String → Option (List (String × PyVal))) (reg : Registry)
    (transcript : String) (script : List AssistantReply) (p : List Message)
    (hp : p ∈ (converse jsonLoads reg transcript script).sent) :
    sentOK transcript p = true := by
  have hinit : sentOK transcript [systemMessage, userMessage transcript]
      = true := by
    simp [sentOK, countSystem, pairedOk, pairedOkAux, pairCheck,
      systemMessage, userMessage]
  exact converseAux_sent_ok transcript jsonLoads reg script _ [] [] hinit
    (by intro q hq; simp at hq) p hp

/-- Witness for C4 at a concrete run: the initial payload of a
single-reply conversation satisfies the invariant. -/
theorem converse_sent_invariant_witness :
    [systemMessage, userMessage "make a task"]
        ∈ (converse (fun _ => none) [] "make a task"
            [{ content := some "done" }]).sent ∧
    sentOK "make a task" [systemMessage, userMessage "make a task"] = true :=
  ⟨by simp [converse, converseAux],
    converse_sent_invariant (fun _ => none) [] "make a task"
      [{ content := some "done" }] [systemMessage, userMessage "make a task"]
      (by simp [converse, converseAux])⟩
